import Mathlib

/- Verification of the sell-target decision engine and the GTT (standing
   conditional sell order) reconciliation helpers of `src/app.py` (the
   "Sell Target Assistant" Streamlit app).

   Modelling conventions:
   * Python floats holding prices and multipliers are modelled as rationals.
   * A dict key that may be absent, or present with value `None`, is an
     `Option` value (`none` = absent-or-None).
   * Python truthiness that the code relies on (`not target_data`,
     `x or y` on numbers and strings, `if symbol and gid`) is modelled
     explicitly: `None`, `0` and `""` are falsy.
   * The broker (`kite`) is an external collaborator; where its behaviour
     matters (deletion calls that may raise, the list of standing orders)
     it is modelled by an explicit oracle / state parameter. -/

namespace SellTarget

/-- Python `a or b` on an optional number: both `None` and `0` are falsy,
so the right operand is returned in those cases (app.py line 87). -/
def pyOrQ (a b : Option ℚ) : Option ℚ :=
  match a with
  | some x => if x = 0 then b else some x
  | none => b

/-- Raw analyst price-target payload (`target_data` in app.py).  `truthy`
is the Python truthiness of the dict (`not target_data` is `truthy = false`;
a dict can be truthy while every modelled key is absent).  Each field is the
value of `target_data.get(key)` for the corresponding key. -/
structure TargetData where
  truthy : Bool
  low : Option ℚ
  mean : Option ℚ
  median : Option ℚ
  standardDeviation : Option ℚ
  stdDev : Option ℚ
  high : Option ℚ
deriving DecidableEq

/-- The inner helper `cap` of `compute_sell_target` (app.py lines 90–95):
clamp to `high` when `cap_at_high` is set and `high` is present. -/
def cap (cap_at_high : Bool) (high : Option ℚ) : Option ℚ → Option ℚ
  | none => none
  | some v =>
    if cap_at_high then
      match high with
      | some h => some (min v h)
      | none => some v
    else some v

/-- The inner helper `above_avg` of `compute_sell_target` (app.py
lines 97–98): `val is not None and val > avg_price`. -/
def above_avg (avg_price : ℚ) : Option ℚ → Bool
  | none => false
  | some v => decide (avg_price < v)

/-- The return pattern `v if above_avg(v) else None` used by every rule
branch of `compute_sell_target`. -/
def gate (avg_price : ℚ) (v : Option ℚ) : Option ℚ :=
  if above_avg avg_price v then v else none

/-- Python substring test `needle in hay` on strings. -/
def strContains (hay needle : String) : Bool :=
  (List.range (hay.toList.length + 1)).any
    (fun i => (hay.toList.drop i).take needle.toList.length == needle.toList)

/-- `compute_sell_target` (app.py lines 66–141).  `avg_price` is optional
because the code guards on `avg_price is None`.  The rule is kept as the
raw string the UI passes in; `strContains rule "StdDev"` is the code's
`"StdDev" in rule` membership test. -/
def compute_sell_target (target_data : TargetData) :
    Option ℚ → String → ℚ → Bool → Option ℚ
  | none, _, _, _ => none
  | some avg, rule, k, cap_at_high =>
    if target_data.truthy = false then none
    else if rule = "Low" then gate avg (cap cap_at_high target_data.high target_data.low)
    else if rule = "Mean" then gate avg (cap cap_at_high target_data.high target_data.mean)
    else if rule = "Median" then gate avg (cap cap_at_high target_data.high target_data.median)
    else if rule = "High" then gate avg (cap cap_at_high target_data.high target_data.high)
    else
      match target_data.mean, target_data.median with
      | some mean, some median =>
        if rule = "Base (max mean/median)" then
          gate avg (cap cap_at_high target_data.high (some (max mean median)))
        else if strContains rule "StdDev" = true ∧
            pyOrQ target_data.standardDeviation target_data.stdDev = none then
          none
        else if rule = "Base + k*StdDev (cap High)" then
          match pyOrQ target_data.standardDeviation target_data.stdDev with
          | some std_dev =>
              gate avg (cap cap_at_high target_data.high (some (max mean median + k * std_dev)))
          | none => none
        else if rule = "Mean + k*StdDev (cap High)" then
          match pyOrQ target_data.standardDeviation target_data.stdDev with
          | some std_dev =>
              gate avg (cap cap_at_high target_data.high (some (mean + k * std_dev)))
          | none => none
        else if rule = "Median + k*StdDev (cap High)" then
          match pyOrQ target_data.standardDeviation target_data.stdDev with
          | some std_dev =>
              gate avg (cap cap_at_high target_data.high (some (median + k * std_dev)))
          | none => none
        else none
      | _, _ => none

/-- Python `str.upper()`, modelled character-wise (ticker symbols are
ASCII). -/
def pyUpper (s : String) : String := ⟨s.toList.map Char.toUpper⟩

/-- One record from `kite.get_gtts()` as read by `build_gtt_index`:
`condSymbol` is `condition.tradingsymbol` (`none` when the condition dict
or the key is missing), `id` the GTT order id (`none` when missing). -/
structure Gtt where
  condSymbol : Option String
  id : Option Nat
deriving DecidableEq

/-- The index built by `build_gtt_index`: a Python dict in insertion order,
from upper-cased tradingsymbol to the list of that symbol's GTT ids. -/
abbrev GttIndex := List (String × List Nat)

/-- `index.setdefault(symbol, []).append(gid)`: append `gid` to the entry
of `symbol`, creating the entry at the end when absent (Python dicts
preserve insertion order). -/
def indexAdd : GttIndex → String → Nat → GttIndex
  | [], s, g => [(s, [g])]
  | kv :: rest, s, g =>
    if kv.1 = s then (kv.1, kv.2 ++ [g]) :: rest
    else kv :: indexAdd rest s g

/-- `gtt_index.get(symbol, [])`. -/
def ordersFor (index : GttIndex) (s : String) : List Nat :=
  match index.find? (fun kv => kv.1 == s) with
  | some kv => kv.2
  | none => []

/-- The loop body of `build_gtt_index` (app.py lines 146–151): extract
`symbol = (cond.get("tradingsymbol") or "").upper()` and `gid = gtt.get("id")`
and register the pair only when `symbol and gid` is truthy, i.e. the
upper-cased symbol is nonempty and the id is present and nonzero. -/
def gttStep (index : GttIndex) (gtt : Gtt) : GttIndex :=
  match gtt.id with
  | some gid =>
      if pyUpper (gtt.condSymbol.getD "") ≠ "" ∧ gid ≠ 0 then
        indexAdd index (pyUpper (gtt.condSymbol.getD "")) gid
      else index
  | none => index

/-- `build_gtt_index` (app.py lines 143–152): index existing GTTs by
upper-cased tradingsymbol. -/
def build_gtt_index (existing_gtts : List Gtt) : GttIndex :=
  existing_gtts.foldl gttStep []

/-- `delete_existing_gtts` (app.py lines 154–163), with the broker modelled
by an oracle `ok`: `ok tid = true` when `kite.delete_gtt tid` succeeds and
`false` when it raises (the exception is caught and logged, and the loop
continues).  The first component is the function's return value, the count
of successful deletions; the second records, in order, every id for which
`kite.delete_gtt` was invoked. -/
def delete_existing_gtts (ok : Nat → Bool) (symbol : String) (gtt_index : GttIndex) :
    Nat × List Nat :=
  (ordersFor gtt_index (pyUpper symbol)).foldl
    (fun acc tid => if ok tid then (acc.1 + 1, acc.2 ++ [tid]) else (acc.1, acc.2 ++ [tid]))
    (0, [])

/-- Effect on the broker's list of standing orders (pairs
`(id, tradingsymbol)`) of the per-symbol reconciliation in app.py
(lines 459–462 and 496–497): `delete_existing_gtts` removes from the broker
every indexed order of the symbol whose deletion call succeeds, then
`place_gtt` registers one new conditional sell order with id `newId` for
the symbol. -/
def reconcile_symbol (ok : Nat → Bool) (state : List (Nat × String))
    (gtt_index : GttIndex) (symbol : String) (newId : Nat) : List (Nat × String) :=
  (state.filter
      (fun o => !(((ordersFor gtt_index (pyUpper symbol)).filter ok).contains o.1)))
    ++ [(newId, symbol)]

/-- One row of `st.session_state.targets_results` (app.py lines 393–404),
restricted to the fields the GTT-action section reads. -/
structure ResultRow where
  symbol : String
  exchange : String
  qty : Int
  avg_price : Option ℚ
  ltp : Option ℚ
  sell_target : Option ℚ
deriving DecidableEq

/-- Python `a or b` on an integer (`0` is falsy). -/
def pyOrInt (a b : Int) : Int := if a = 0 then b else a

/-- `valid_rows` (app.py lines 429–432): rows with a sell target, positive
quantity (`(r.get("qty") or 0) > 0`) and a last traded price. -/
def valid_rows (results : List ResultRow) : List ResultRow :=
  results.filter
    (fun r => r.sell_target.isSome && decide (0 < pyOrInt r.qty 0) && r.ltp.isSome)

/-- Rows for which the Update-ALL loop (app.py lines 450–468) invokes
`place_gtt`: the loop iterates over `valid_rows` only, and calls
`delete_existing_gtts` and `place_gtt` only when `dry_run` is off. -/
def update_all_placements (dry_run : Bool) (results : List ResultRow) : List ResultRow :=
  if dry_run then [] else valid_rows results

/-- The `disabled` flag of the per-symbol "Delete old + Place GTT" button
(app.py line 488); the action cannot run when it is `true`. -/
def individual_disabled (r : ResultRow) : Bool :=
  r.sell_target.isNone || decide (r.qty ≤ 0) || r.ltp.isNone

/-- Build a copy of a payload with the given median field. -/
def withMedian (td : TargetData) (m : Option ℚ) : TargetData :=
  ⟨td.truthy, td.low, td.mean, m, td.standardDeviation, td.stdDev, td.high⟩

/-- Build a copy of a payload with the given mean field. -/
def withMean (td : TargetData) (m : Option ℚ) : TargetData :=
  ⟨td.truthy, td.low, m, td.median, td.standardDeviation, td.stdDev, td.high⟩

/-- The statistics payload of spec §8 Examples 1–3:
Mean 100, Median 105, StandardDeviation 10, High 130. -/
def exampleStats : TargetData :=
  ⟨true, none, some 100, some 105, some 10, none, some 130⟩

/-- A truthy payload (a nonempty dict) in which every statistics field is
absent. -/
def emptyStats : TargetData :=
  ⟨true, none, none, none, none, none, none⟩

/-- A payload with mean, standard deviation and high present but median
absent. -/
def statsNoMedian : TargetData :=
  ⟨true, none, some 100, none, some 10, none, some 200⟩

/-- A payload whose StandardDeviation key is present with value 0 and which
has no StdDev key. -/
def statsZeroStd : TargetData :=
  ⟨true, none, some 100, some 105, some 0, none, some 200⟩

/-- A payload with StandardDeviation present but 0 and StdDev present
with value 5. -/
def statsZeroStdAlt : TargetData :=
  ⟨true, none, some 100, some 105, some 0, some 5, some 200⟩

/-- The id that `build_gtt_index` is expected to register under symbol `s`
from one raw record: present exactly when the record passes the code's
`symbol and gid` truthiness test and its upper-cased symbol is `s`.  Used
to characterise the index as a per-symbol filter of the input sequence in
discovery order. -/
def indexedId (s : String) (gtt : Gtt) : Option Nat :=
  match gtt.id with
  | some gid =>
      if pyUpper (gtt.condSymbol.getD "") = s ∧
          pyUpper (gtt.condSymbol.getD "") ≠ "" ∧ gid ≠ 0 then some gid
      else none
  | none => none

/-- A result row with no sell target, zero quantity and no last price. -/
def badRow : ResultRow := ⟨"XYZ", "NSE", 0, none, none, none⟩

/-- A broker state holding one standing order, id 1, for symbol ABC. -/
def brokerBefore : List (Nat × String) := [(1, "ABC")]

/-- The raw GTT listing matching `brokerBefore`. -/
def gttsBefore : List Gtt := [⟨some "ABC", some 1⟩]

/-- A GTT listing with one well-formed record (lower-case symbol, id 7), one
record lacking a symbol and one record lacking an id. -/
def gttsMixed : List Gtt := [⟨some "abc", some 7⟩, ⟨none, some 3⟩, ⟨some "xyz", none⟩]

/-- A value let through by `gate` is strictly above the average price. -/
lemma gate_lt {a v : ℚ} {o : Option ℚ} (h : gate a o = some v) : a < v := by
  unfold gate at h
  split at h
  · next hc =>
      cases o with
      | none => simp [above_avg] at hc
      | some w =>
          cases h
          simpa [above_avg] using hc
  · exact absurd h (by simp)

/-- A value let through by `gate` is the candidate itself. -/
lemma gate_eq {a v : ℚ} {o : Option ℚ} (h : gate a o = some v) : o = some v := by
  unfold gate at h
  split at h
  · exact h
  · exact absurd h (by simp)

/-- With capping on and `high` present, `cap` never returns a value above
`high`. -/
lemma cap_le {hi v : ℚ} {o : Option ℚ} (h : cap true (some hi) o = some v) : v ≤ hi := by
  cases o with
  | none => exact absurd h (by simp [cap])
  | some w =>
      simp only [cap, if_pos rfl] at h
      cases h
      exact min_le_right w hi

/-- Unfolding of `compute_sell_target` at a present average price. -/
lemma compute_some_eq (td : TargetData) (a : ℚ) (rule : String) (k : ℚ) (c : Bool) :
    compute_sell_target td (some a) rule k c =
      (if td.truthy = false then none
       else if rule = "Low" then gate a (cap c td.high td.low)
       else if rule = "Mean" then gate a (cap c td.high td.mean)
       else if rule = "Median" then gate a (cap c td.high td.median)
       else if rule = "High" then gate a (cap c td.high td.high)
       else
         match td.mean, td.median with
         | some mean, some median =>
           if rule = "Base (max mean/median)" then
             gate a (cap c td.high (some (max mean median)))
           else if strContains rule "StdDev" = true ∧
               pyOrQ td.standardDeviation td.stdDev = none then
             none
           else if rule = "Base + k*StdDev (cap High)" then
             match pyOrQ td.standardDeviation td.stdDev with
             | some std_dev => gate a (cap c td.high (some (max mean median + k * std_dev)))
             | none => none
           else if rule = "Mean + k*StdDev (cap High)" then
             match pyOrQ td.standardDeviation td.stdDev with
             | some std_dev => gate a (cap c td.high (some (mean + k * std_dev)))
             | none => none
           else if rule = "Median + k*StdDev (cap High)" then
             match pyOrQ td.standardDeviation td.stdDev with
             | some std_dev => gate a (cap c td.high (some (median + k * std_dev)))
             | none => none
           else none
         | _, _ => none) := rfl

/-- Evaluation of `compute_sell_target` under rule "Low" on a truthy
payload. -/
lemma compute_eq_low (td : TargetData) (a k : ℚ) (c : Bool) (ht : td.truthy = true) :
    compute_sell_target td (some a) "Low" k c = gate a (cap c td.high td.low) := by
  rw [compute_some_eq, if_neg (by simp [ht]), if_pos rfl]

/-- Evaluation of `compute_sell_target` under rule "Mean" on a truthy
payload. -/
lemma compute_eq_mean (td : TargetData) (a k : ℚ) (c : Bool) (ht : td.truthy = true) :
    compute_sell_target td (some a) "Mean" k c = gate a (cap c td.high td.mean) := by
  rw [compute_some_eq, if_neg (by simp [ht]), if_neg (by decide), if_pos rfl]

/-- Evaluation of `compute_sell_target` under rule "Median" on a truthy
payload. -/
lemma compute_eq_median (td : TargetData) (a k : ℚ) (c : Bool) (ht : td.truthy = true) :
    compute_sell_target td (some a) "Median" k c = gate a (cap c td.high td.median) := by
  rw [compute_some_eq, if_neg (by simp [ht]), if_neg (by decide), if_neg (by decide),
    if_pos rfl]

/-- Evaluation of `compute_sell_target` under rule "High" on a truthy
payload. -/
lemma compute_eq_high (td : TargetData) (a k : ℚ) (c : Bool) (ht : td.truthy = true) :
    compute_sell_target td (some a) "High" k c = gate a (cap c td.high td.high) := by
  rw [compute_some_eq, if_neg (by simp [ht]), if_neg (by decide), if_neg (by decide),
    if_neg (by decide), if_pos rfl]

/-- Evaluation of `compute_sell_target` under rule "Base (max mean/median)"
on a truthy payload with mean and median present. -/
lemma compute_eq_base (td : TargetData) (a k : ℚ) (c : Bool) (m d : ℚ)
    (ht : td.truthy = true) (hm : td.mean = some m) (hd : td.median = some d) :
    compute_sell_target td (some a) "Base (max mean/median)" k c
      = gate a (cap c td.high (some (max m d))) := by
  rw [compute_some_eq, if_neg (by simp [ht]), if_neg (by decide), if_neg (by decide),
    if_neg (by decide), if_neg (by decide), hm, hd]
  dsimp only
  rw [if_pos rfl]

/-- Evaluation of `compute_sell_target` under rule "Base + k*StdDev (cap
High)" on a truthy payload with mean, median and standard deviation
present. -/
lemma compute_eq_base_plus (td : TargetData) (a k : ℚ) (c : Bool) (m d s : ℚ)
    (ht : td.truthy = true) (hm : td.mean = some m) (hd : td.median = some d)
    (hs : pyOrQ td.standardDeviation td.stdDev = some s) :
    compute_sell_target td (some a) "Base + k*StdDev (cap High)" k c
      = gate a (cap c td.high (some (max m d + k * s))) := by
  rw [compute_some_eq, if_neg (by simp [ht]), if_neg (by decide), if_neg (by decide),
    if_neg (by decide), if_neg (by decide), hm, hd]
  dsimp only
  rw [if_neg (by decide), hs, if_neg (by simp), if_pos rfl]

/-- Evaluation of `compute_sell_target` under rule "Mean + k*StdDev (cap
High)" on a truthy payload with mean, median and standard deviation
present. -/
lemma compute_eq_mean_plus (td : TargetData) (a k : ℚ) (c : Bool) (m d s : ℚ)
    (ht : td.truthy = true) (hm : td.mean = some m) (hd : td.median = some d)
    (hs : pyOrQ td.standardDeviation td.stdDev = some s) :
    compute_sell_target td (some a) "Mean + k*StdDev (cap High)" k c
      = gate a (cap c td.high (some (m + k * s))) := by
  rw [compute_some_eq, if_neg (by simp [ht]), if_neg (by decide), if_neg (by decide),
    if_neg (by decide), if_neg (by decide), hm, hd]
  dsimp only
  rw [if_neg (by decide), hs, if_neg (by simp), if_neg (by decide), if_pos rfl]

/-- Evaluation of `compute_sell_target` under rule "Median + k*StdDev (cap
High)" on a truthy payload with mean, median and standard deviation
present. -/
lemma compute_eq_median_plus (td : TargetData) (a k : ℚ) (c : Bool) (m d s : ℚ)
    (ht : td.truthy = true) (hm : td.mean = some m) (hd : td.median = some d)
    (hs : pyOrQ td.standardDeviation td.stdDev = some s) :
    compute_sell_target td (some a) "Median + k*StdDev (cap High)" k c
      = gate a (cap c td.high (some (d + k * s))) := by
  rw [compute_some_eq, if_neg (by simp [ht]), if_neg (by decide), if_neg (by decide),
    if_neg (by decide), if_neg (by decide), hm, hd]
  dsimp only
  rw [if_neg (by decide), hs, if_neg (by simp), if_neg (by decide), if_neg (by decide),
    if_pos rfl]

/-- A falsy (empty) payload always yields `none`. -/
lemma compute_falsy (td : TargetData) (a : ℚ) (rule : String) (k : ℚ) (c : Bool)
    (ht : td.truthy = false) : compute_sell_target td (some a) rule k c = none := by
  rw [compute_some_eq, if_pos ht]

/-- Any rule past the four fixed picks yields `none` when mean or median is
absent (app.py lines 118–119). -/
lemma compute_derived_no_base (td : TargetData) (a k : ℚ) (c : Bool) (rule : String)
    (h1 : rule ≠ "Low") (h2 : rule ≠ "Mean") (h3 : rule ≠ "Median") (h4 : rule ≠ "High")
    (hmd : td.mean = none ∨ td.median = none) :
    compute_sell_target td (some a) rule k c = none := by
  cases ht : td.truthy with
  | false => exact compute_falsy td a rule k c ht
  | true =>
    rw [compute_some_eq, if_neg (by simp [ht]), if_neg h1, if_neg h2, if_neg h3, if_neg h4]
    rcases hmd with hm | hd
    · rw [hm]
    · rw [hd]; cases td.mean <;> rfl

/-- A rule whose name mentions "StdDev" yields `none` when the extracted
standard deviation is `none` (app.py lines 126–127). -/
lemma compute_stdrule_none (td : TargetData) (a k : ℚ) (c : Bool) (rule : String)
    (h1 : rule ≠ "Low") (h2 : rule ≠ "Mean") (h3 : rule ≠ "Median") (h4 : rule ≠ "High")
    (h5 : rule ≠ "Base (max mean/median)")
    (hsc : strContains rule "StdDev" = true)
    (hpy : pyOrQ td.standardDeviation td.stdDev = none) :
    compute_sell_target td (some a) rule k c = none := by
  cases ht : td.truthy with
  | false => exact compute_falsy td a rule k c ht
  | true =>
    rw [compute_some_eq, if_neg (by simp [ht]), if_neg h1, if_neg h2, if_neg h3, if_neg h4]
    cases hm : td.mean with
    | none => cases td.median <;> rfl
    | some m =>
      cases hd : td.median with
      | none => rfl
      | some d =>
        dsimp only
        rw [if_neg h5, if_pos ⟨hsc, hpy⟩]

/-- C1: for every statistics payload, average price, rule string, multiplier
and cap flag, if `compute_sell_target` returns a value `v`, then `v` is
strictly greater than the average price. -/
theorem compute_sell_target_above_avg (td : TargetData) (a : ℚ) (rule : String)
    (k : ℚ) (c : Bool) (v : ℚ)
    (h : compute_sell_target td (some a) rule k c = some v) : a < v := by
  rw [compute_some_eq] at h
  repeat
    first
    | exact Option.noConfusion h
    | exact gate_lt h
    | split at h

/-- Witness for C1 at the payload of spec §8 Example 1: with average price
90 the engine returns 115, and the theorem yields 90 < 115. -/
theorem compute_sell_target_above_avg_witness : (90 : ℚ) < 115 :=
  compute_sell_target_above_avg exampleStats 90 "Base + k*StdDev (cap High)" 1 true 115
    (by rw [compute_eq_base_plus exampleStats 90 1 true 100 105 10 rfl rfl rfl
          (by norm_num [pyOrQ, exampleStats])]
        norm_num [gate, cap, above_avg, exampleStats])

/-- C5: with `cap_at_high = true` and `high` present, every value
`compute_sell_target` returns is at most `high` (capping uses an inclusive
`min`). -/
theorem compute_sell_target_le_high (td : TargetData) (a : ℚ) (rule : String)
    (k : ℚ) (hi v : ℚ) (hhigh : td.high = some hi)
    (h : compute_sell_target td (some a) rule k true = some v) : v ≤ hi := by
  rw [compute_some_eq, hhigh] at h
  repeat
    first
    | exact Option.noConfusion h
    | exact cap_le (gate_eq h)
    | split at h

/-- Witness for C5 at spec §8 Example 1: the returned value 115 is at most
the high estimate 130. -/
theorem compute_sell_target_le_high_witness : (115 : ℚ) ≤ 130 :=
  compute_sell_target_le_high exampleStats 90 "Base + k*StdDev (cap High)" 1 130 115 rfl
    (by rw [compute_eq_base_plus exampleStats 90 1 true 100 105 10 rfl rfl rfl
          (by norm_num [pyOrQ, exampleStats])]
        norm_num [gate, cap, above_avg, exampleStats])

/-- C2 counterexample: at the stats of spec §8 Example 2 (Mean 100,
Median 105, StandardDeviation 10, High 130) with average price 120, rule
"Base + k*StdDev (cap High)", k = 1 and capping on, the engine does NOT
return 130: there is no fallback to High in the code. -/
theorem no_fallback_to_high_counterexample :
    compute_sell_target exampleStats (some 120) "Base + k*StdDev (cap High)" 1 true
      ≠ some 130 := by
  have hnone : compute_sell_target exampleStats (some 120)
      "Base + k*StdDev (cap High)" 1 true = none := by
    rw [compute_eq_base_plus exampleStats 120 1 true 100 105 10 rfl rfl rfl
      (by norm_num [pyOrQ, exampleStats])]
    norm_num [gate, cap, above_avg, exampleStats]
  rw [hnone]
  simp

/-- C2 amended: at the Example 1/2 stats, with average price 90 the engine
returns the capped candidate 115; with average price 120 the capped
candidate 115 is not strictly above the average price and the engine
returns `none` — it never falls back to the High value. -/
theorem no_fallback_to_high :
    compute_sell_target exampleStats (some 90) "Base + k*StdDev (cap High)" 1 true
        = some 115 ∧
      compute_sell_target exampleStats (some 120) "Base + k*StdDev (cap High)" 1 true
        = none := by
  constructor <;>
    · rw [compute_eq_base_plus exampleStats _ 1 true 100 105 10 rfl rfl rfl
        (by norm_num [pyOrQ, exampleStats])]
      norm_num [gate, cap, above_avg, exampleStats]

/-- C3: a field required by the selected rule variant that is absent makes
`compute_sell_target` return `none`: the named field for the four fixed
picks, mean or median for the two max-of-mean-median base variants, and the
standard deviation (both keys absent) for the three "+k*StdDev" variants. -/
theorem compute_sell_target_missing_field (td : TargetData) (a k : ℚ) (c : Bool) :
    (td.low = none → compute_sell_target td (some a) "Low" k c = none) ∧
    (td.mean = none → compute_sell_target td (some a) "Mean" k c = none) ∧
    (td.median = none → compute_sell_target td (some a) "Median" k c = none) ∧
    (td.high = none → compute_sell_target td (some a) "High" k c = none) ∧
    ((td.mean = none ∨ td.median = none) →
      compute_sell_target td (some a) "Base (max mean/median)" k c = none) ∧
    ((td.mean = none ∨ td.median = none) →
      compute_sell_target td (some a) "Base + k*StdDev (cap High)" k c = none) ∧
    (td.standardDeviation = none ∧ td.stdDev = none →
      compute_sell_target td (some a) "Base + k*StdDev (cap High)" k c = none) ∧
    (td.standardDeviation = none ∧ td.stdDev = none →
      compute_sell_target td (some a) "Mean + k*StdDev (cap High)" k c = none) ∧
    (td.standardDeviation = none ∧ td.stdDev = none →
      compute_sell_target td (some a) "Median + k*StdDev (cap High)" k c = none) := by
  refine ⟨?_, ?_, ?_, ?_, ?_, ?_, ?_, ?_, ?_⟩
  · intro hlow
    cases ht : td.truthy with
    | false => exact compute_falsy td a _ k c ht
    | true => rw [compute_eq_low td a k c ht, hlow]; rfl
  · intro hmean
    cases ht : td.truthy with
    | false => exact compute_falsy td a _ k c ht
    | true => rw [compute_eq_mean td a k c ht, hmean]; rfl
  · intro hmedian
    cases ht : td.truthy with
    | false => exact compute_falsy td a _ k c ht
    | true => rw [compute_eq_median td a k c ht, hmedian]; rfl
  · intro hhigh
    cases ht : td.truthy with
    | false => exact compute_falsy td a _ k c ht
    | true => rw [compute_eq_high td a k c ht, hhigh]; rfl
  · exact compute_derived_no_base td a k c _
      (by decide) (by decide) (by decide) (by decide)
  · exact compute_derived_no_base td a k c _
      (by decide) (by decide) (by decide) (by decide)
  · intro hsd
    exact compute_stdrule_none td a k c _
      (by decide) (by decide) (by decide) (by decide) (by decide) (by decide)
      (by rw [hsd.1, hsd.2]; rfl)
  · intro hsd
    exact compute_stdrule_none td a k c _
      (by decide) (by decide) (by decide) (by decide) (by decide) (by decide)
      (by rw [hsd.1, hsd.2]; rfl)
  · intro hsd
    exact compute_stdrule_none td a k c _
      (by decide) (by decide) (by decide) (by decide) (by decide) (by decide)
      (by rw [hsd.1, hsd.2]; rfl)

/-- Witness for C3: on a truthy payload with every statistics field absent,
a fixed pick, a base variant and a "+k*StdDev" variant all return `none`. -/
theorem compute_sell_target_missing_field_witness :
    compute_sell_target emptyStats (some 10) "Low" 1 true = none ∧
      compute_sell_target emptyStats (some 10) "Base + k*StdDev (cap High)" 1 true = none ∧
      compute_sell_target emptyStats (some 10) "Mean + k*StdDev (cap High)" 1 true = none := by
  obtain ⟨h1, h2, h3, h4, h5, h6, h7, h8, h9⟩ :=
    compute_sell_target_missing_field emptyStats 10 1 true
  exact ⟨h1 rfl, h6 (Or.inl rfl), h8 ⟨rfl, rfl⟩⟩

/-- C4 counterexample: under rule "Mean + k*StdDev (cap High)" with mean
100, standard deviation 10 and high 200 present, capping on, k = 1 and
average price 50 (so the capped candidate 110 exceeds it), the engine still
returns `none` because the median is absent: the mean/median presence check
runs before every derived rule. -/
theorem mean_plus_requires_median_counterexample :
    compute_sell_target statsNoMedian (some 50) "Mean + k*StdDev (cap High)" 1 true = none ∧
      statsNoMedian.mean = some 100 ∧
      statsNoMedian.standardDeviation = some 10 ∧
      statsNoMedian.high = some 200 ∧
      statsNoMedian.median = none ∧
      (50 : ℚ) < min (100 + 1 * 10) 200 := by
  refine ⟨?_, rfl, rfl, rfl, rfl, by norm_num⟩
  exact compute_derived_no_base statsNoMedian 50 1 true _
    (by decide) (by decide) (by decide) (by decide) (Or.inr rfl)

/-- C4 amended: rule "Mean + k*StdDev (cap High)" additionally requires the
median to be present (absence of median yields `none`), but the result does
not depend on the median's value; symmetrically "Median + k*StdDev (cap
High)" requires the mean to be present but not its value. -/
theorem mean_plus_rule_field_dependence (td : TargetData) (a k : ℚ) (c : Bool) (x y : ℚ) :
    (td.median = none →
      compute_sell_target td (some a) "Mean + k*StdDev (cap High)" k c = none) ∧
    compute_sell_target (withMedian td (some x)) (some a) "Mean + k*StdDev (cap High)" k c
      = compute_sell_target (withMedian td (some y)) (some a) "Mean + k*StdDev (cap High)" k c ∧
    (td.mean = none →
      compute_sell_target td (some a) "Median + k*StdDev (cap High)" k c = none) ∧
    compute_sell_target (withMean td (some x)) (some a) "Median + k*StdDev (cap High)" k c
      = compute_sell_target (withMean td (some y)) (some a) "Median + k*StdDev (cap High)" k c := by
  refine ⟨?_, ?_, ?_, ?_⟩
  · intro hd
    exact compute_derived_no_base td a k c _
      (by decide) (by decide) (by decide) (by decide) (Or.inr hd)
  · cases ht : td.truthy with
    | false =>
        rw [compute_falsy (withMedian td (some x)) a _ k c ht,
          compute_falsy (withMedian td (some y)) a _ k c ht]
    | true =>
        cases hm : td.mean with
        | none =>
            rw [compute_derived_no_base (withMedian td (some x)) a k c _
                (by decide) (by decide) (by decide) (by decide) (Or.inl hm),
              compute_derived_no_base (withMedian td (some y)) a k c _
                (by decide) (by decide) (by decide) (by decide) (Or.inl hm)]
        | some m =>
            cases hpy : pyOrQ td.standardDeviation td.stdDev with
            | none =>
                rw [compute_stdrule_none (withMedian td (some x)) a k c _
                    (by decide) (by decide) (by decide) (by decide) (by decide)
                    (by decide) hpy,
                  compute_stdrule_none (withMedian td (some y)) a k c _
                    (by decide) (by decide) (by decide) (by decide) (by decide)
                    (by decide) hpy]
            | some s =>
                rw [compute_eq_mean_plus (withMedian td (some x)) a k c m x s ht hm rfl hpy,
                  compute_eq_mean_plus (withMedian td (some y)) a k c m y s ht hm rfl hpy]
                rfl
  · intro hm
    exact compute_derived_no_base td a k c _
      (by decide) (by decide) (by decide) (by decide) (Or.inl hm)
  · cases ht : td.truthy with
    | false =>
        rw [compute_falsy (withMean td (some x)) a _ k c ht,
          compute_falsy (withMean td (some y)) a _ k c ht]
    | true =>
        cases hd : td.median with
        | none =>
            rw [compute_derived_no_base (withMean td (some x)) a k c _
                (by decide) (by decide) (by decide) (by decide) (Or.inr hd),
              compute_derived_no_base (withMean td (some y)) a k c _
                (by decide) (by decide) (by decide) (by decide) (Or.inr hd)]
        | some d =>
            cases hpy : pyOrQ td.standardDeviation td.stdDev with
            | none =>
                rw [compute_stdrule_none (withMean td (some x)) a k c _
                    (by decide) (by decide) (by decide) (by decide) (by decide)
                    (by decide) hpy,
                  compute_stdrule_none (withMean td (some y)) a k c _
                    (by decide) (by decide) (by decide) (by decide) (by decide)
                    (by decide) hpy]
            | some s =>
                rw [compute_eq_median_plus (withMean td (some x)) a k c x d s ht rfl hd hpy,
                  compute_eq_median_plus (withMean td (some y)) a k c y d s ht rfl hd hpy]
                rfl

/-- Witness for C4 amended: with median absent the Mean rule yields `none`;
with two different median values 7 and 9 on the Example 1 stats the Mean
rule computes the same result. -/
theorem mean_plus_rule_field_dependence_witness :
    compute_sell_target statsNoMedian (some 50) "Mean + k*StdDev (cap High)" 1 true = none ∧
      compute_sell_target (withMedian exampleStats (some 7)) (some 90)
          "Mean + k*StdDev (cap High)" 1 true
        = compute_sell_target (withMedian exampleStats (some 9)) (some 90)
            "Mean + k*StdDev (cap High)" 1 true := by
  refine ⟨(mean_plus_rule_field_dependence statsNoMedian 50 1 true 0 0).1 rfl, ?_⟩
  exact (mean_plus_rule_field_dependence exampleStats 90 1 true 7 9).2.1

/-- C10: a payload whose StandardDeviation key holds 0 with no StdDev key is
treated as having no standard deviation — every "+k*StdDev" rule returns
`none` — because the extraction `get("StandardDeviation") or get("StdDev")`
uses Python truthiness; and a present StdDev value overrides a
present-but-zero StandardDeviation (last two conjuncts). -/
theorem zero_standard_deviation_is_missing (td : TargetData) (a k : ℚ) (c : Bool) :
    (td.standardDeviation = some 0 → td.stdDev = none →
      compute_sell_target td (some a) "Base + k*StdDev (cap High)" k c = none) ∧
    (td.standardDeviation = some 0 → td.stdDev = none →
      compute_sell_target td (some a) "Mean + k*StdDev (cap High)" k c = none) ∧
    (td.standardDeviation = some 0 → td.stdDev = none →
      compute_sell_target td (some a) "Median + k*StdDev (cap High)" k c = none) ∧
    (∀ b : Option ℚ, pyOrQ (some 0) b = b) ∧
    compute_sell_target statsZeroStdAlt (some 50) "Mean + k*StdDev (cap High)" 1 true
      = some 105 := by
  refine ⟨?_, ?_, ?_, ?_, ?_⟩
  · intro h1 h2
    exact compute_stdrule_none td a k c _
      (by decide) (by decide) (by decide) (by decide) (by decide) (by decide)
      (by rw [h1, h2]; norm_num [pyOrQ])
  · intro h1 h2
    exact compute_stdrule_none td a k c _
      (by decide) (by decide) (by decide) (by decide) (by decide) (by decide)
      (by rw [h1, h2]; norm_num [pyOrQ])
  · intro h1 h2
    exact compute_stdrule_none td a k c _
      (by decide) (by decide) (by decide) (by decide) (by decide) (by decide)
      (by rw [h1, h2]; norm_num [pyOrQ])
  · intro b
    norm_num [pyOrQ]
  · rw [compute_eq_mean_plus statsZeroStdAlt 50 1 true 100 105 5 rfl rfl rfl
      (by norm_num [pyOrQ, statsZeroStdAlt])]
    norm_num [gate, cap, above_avg, statsZeroStdAlt]

/-- Witness for C10: the concrete payload with StandardDeviation 0 and no
StdDev key yields `none` under a "+k*StdDev" rule. -/
theorem zero_standard_deviation_is_missing_witness :
    compute_sell_target statsZeroStd (some 10) "Base + k*StdDev (cap High)" 1 true = none :=
  (zero_standard_deviation_is_missing statsZeroStd 10 1 true).1 rfl rfl

/-- C6: a row whose sell target is absent, whose quantity is not positive,
or whose last traded price is absent is never submitted as a new GTT: the
batch path never iterates over it (it is filtered out of `valid_rows`), and
the per-symbol path disables its button. -/
theorem no_order_for_invalid_row (results : List ResultRow) (dry_run : Bool)
    (r : ResultRow) (h : r.sell_target = none ∨ r.qty ≤ 0 ∨ r.ltp = none) :
    r ∉ update_all_placements dry_run results ∧ individual_disabled r = true := by
  constructor
  · intro hmem
    unfold update_all_placements at hmem
    split at hmem
    · exact absurd hmem (List.not_mem_nil r)
    · unfold valid_rows at hmem
      rw [List.mem_filter] at hmem
      obtain ⟨-, hp⟩ := hmem
      simp only [Bool.and_eq_true, decide_eq_true_eq, Option.isSome_iff_exists] at hp
      obtain ⟨⟨⟨v1, hv1⟩, h2⟩, v3, hv3⟩ := hp
      rcases h with h | h | h
      · rw [h] at hv1
        exact Option.noConfusion hv1
      · unfold pyOrInt at h2
        split at h2
        · exact absurd h2 (lt_irrefl 0)
        · exact absurd h (not_le.mpr h2)
      · rw [h] at hv3
        exact Option.noConfusion hv3
  · unfold individual_disabled
    rcases h with h | h | h
    · simp [h]
    · simp [h]
    · simp [h]

/-- Witness for C6: a concrete row with no target, zero quantity and no
last price is excluded from the batch loop and its button is disabled. -/
theorem no_order_for_invalid_row_witness :
    badRow ∉ update_all_placements false [badRow] ∧ individual_disabled badRow = true :=
  no_order_for_invalid_row [badRow] false badRow (Or.inl rfl)

/-- Folding the deletion loop accumulates the success count and attempts
every id in order. -/
lemma delete_foldl (ok : Nat → Bool) (l : List Nat) (c : Nat) (t : List Nat) :
    l.foldl (fun acc tid =>
        if ok tid then (acc.1 + 1, acc.2 ++ [tid]) else (acc.1, acc.2 ++ [tid])) (c, t)
      = (c + l.countP ok, t ++ l) := by
  induction l generalizing c t with
  | nil => simp
  | cons x xs ih =>
      cases hx : ok x <;>
        simp [List.foldl_cons, hx, ih, List.countP_cons] <;> omega

/-- C7: `delete_existing_gtts` invokes a deletion for every standing order
id of the symbol, in order, regardless of which deletion calls fail; it
returns the count of deletions that succeeded; and the new-order
submission that follows in the reconciliation step still happens (the new
order is always registered by `reconcile_symbol`). -/
theorem delete_existing_gtts_attempts_all (ok : Nat → Bool) (symbol : String)
    (gtt_index : GttIndex) :
    (delete_existing_gtts ok symbol gtt_index).2 = ordersFor gtt_index (pyUpper symbol) ∧
    (delete_existing_gtts ok symbol gtt_index).1
      = (ordersFor gtt_index (pyUpper symbol)).countP ok ∧
    ∀ (state : List (Nat × String)) (newId : Nat),
      (newId, symbol) ∈ reconcile_symbol ok state gtt_index symbol newId := by
  refine ⟨?_, ?_, ?_⟩
  · unfold delete_existing_gtts
    rw [delete_foldl]
    simp
  · unfold delete_existing_gtts
    rw [delete_foldl]
    simp
  · intro state newId
    unfold reconcile_symbol
    exact List.mem_append_right _ (List.mem_singleton_self _)

/-- Lookup hits the head entry when its key matches. -/
lemma ordersFor_cons_hit (kv : String × List Nat) (rest : GttIndex) (s : String)
    (h : kv.1 = s) : ordersFor (kv :: rest) s = kv.2 := by
  unfold ordersFor
  rw [List.find?_cons_of_pos _ (by simp [h])]

/-- Lookup skips the head entry when its key differs. -/
lemma ordersFor_cons_skip (kv : String × List Nat) (rest : GttIndex) (s : String)
    (h : kv.1 ≠ s) : ordersFor (kv :: rest) s = ordersFor rest s := by
  unfold ordersFor
  rw [List.find?_cons_of_neg _ (by simp [h])]

/-- Effect of `indexAdd` on a lookup: the added id lands at the end of its
own symbol's list and leaves every other symbol's list unchanged. -/
lemma ordersFor_indexAdd (idx : GttIndex) (s' : String) (g : Nat) (s : String) :
    ordersFor (indexAdd idx s' g) s
      = if s' = s then ordersFor idx s ++ [g] else ordersFor idx s := by
  induction idx with
  | nil =>
      by_cases h : s' = s
      · rw [if_pos h, show indexAdd [] s' g = [(s', [g])] from rfl,
          ordersFor_cons_hit (s', [g]) [] s h]
        rfl
      · rw [if_neg h, show indexAdd [] s' g = [(s', [g])] from rfl,
          ordersFor_cons_skip (s', [g]) [] s h]
  | cons kv rest ih =>
      rw [show indexAdd (kv :: rest) s' g
          = if kv.1 = s' then (kv.1, kv.2 ++ [g]) :: rest else kv :: indexAdd rest s' g
        from rfl]
      by_cases h1 : kv.1 = s'
      · rw [if_pos h1]
        by_cases h2 : s' = s
        · rw [if_pos h2, ordersFor_cons_hit (kv.1, kv.2 ++ [g]) rest s (h1.trans h2),
            ordersFor_cons_hit kv rest s (h1.trans h2)]
        · rw [if_neg h2, ordersFor_cons_skip (kv.1, kv.2 ++ [g]) rest s
            (fun he => h2 (h1.symm.trans he)),
            ordersFor_cons_skip kv rest s (fun he => h2 (h1.symm.trans he))]
      · rw [if_neg h1]
        by_cases h3 : kv.1 = s
        · have hss : s' ≠ s := fun he => h1 (h3.trans he.symm)
          rw [if_neg hss, ordersFor_cons_hit kv (indexAdd rest s' g) s h3,
            ordersFor_cons_hit kv rest s h3]
        · rw [ordersFor_cons_skip kv (indexAdd rest s' g) s h3, ih]
          by_cases hss : s' = s
          · rw [if_pos hss, if_pos hss, ordersFor_cons_skip kv rest s h3]
          · rw [if_neg hss, if_neg hss, ordersFor_cons_skip kv rest s h3]

/-- Folding `gttStep` over records appends, per symbol, exactly the ids of
the records that register under that symbol, in discovery order. -/
lemma ordersFor_build_aux (gtts : List Gtt) (acc : GttIndex) (s : String) :
    ordersFor (gtts.foldl gttStep acc) s = ordersFor acc s ++ gtts.filterMap (indexedId s) := by
  induction gtts generalizing acc with
  | nil => simp
  | cons g rest ih =>
      rw [List.foldl_cons, ih]
      cases hid : g.id with
      | none =>
          have hstep : gttStep acc g = acc := by unfold gttStep; rw [hid]
          have hsel : indexedId s g = none := by unfold indexedId; rw [hid]
          rw [hstep, List.filterMap_cons_none hsel]
      | some gid =>
          by_cases hcond : (pyUpper (g.condSymbol.getD "") ≠ "" ∧ gid ≠ 0)
          · have hstep : gttStep acc g = indexAdd acc (pyUpper (g.condSymbol.getD "")) gid := by
              unfold gttStep
              rw [hid]
              dsimp only
              rw [if_pos hcond]
            by_cases hs : pyUpper (g.condSymbol.getD "") = s
            · have hsel : indexedId s g = some gid := by
                unfold indexedId
                rw [hid]
                dsimp only
                rw [if_pos ⟨hs, hcond⟩]
              rw [hstep, ordersFor_indexAdd, if_pos hs,
                List.filterMap_cons_some hsel, List.append_assoc]
              rfl
            · have hsel : indexedId s g = none := by
                unfold indexedId
                rw [hid]
                dsimp only
                rw [if_neg (fun hc => hs hc.1)]
              rw [hstep, ordersFor_indexAdd, if_neg hs, List.filterMap_cons_none hsel]
          · have hstep : gttStep acc g = acc := by
              unfold gttStep
              rw [hid]
              dsimp only
              rw [if_neg hcond]
            have hsel : indexedId s g = none := by
              unfold indexedId
              rw [hid]
              dsimp only
              rw [if_neg (fun hc => hcond ⟨hc.2.1, hc.2.2⟩)]
            rw [hstep, List.filterMap_cons_none hsel]

/-- C9: for every input sequence of raw standing-order records and every
symbol `s`, the index lookup yields exactly the ids of the records
registering under `s` (upper-cased symbol equal to `s`), in discovery
order; a record lacking a symbol or an id registers nothing; and when no
record registers under `s`, the lookup yields the empty sequence. -/
theorem build_gtt_index_spec (gtts : List Gtt) (s : String) :
    ordersFor (build_gtt_index gtts) s = gtts.filterMap (indexedId s) ∧
    (∀ g ∈ gtts, g.condSymbol = none ∨ g.id = none → indexedId s g = none) ∧
    ((∀ g ∈ gtts, indexedId s g = none) → ordersFor (build_gtt_index gtts) s = []) := by
  have hchar : ordersFor (build_gtt_index gtts) s = gtts.filterMap (indexedId s) := by
    unfold build_gtt_index
    rw [ordersFor_build_aux]
    rfl
  refine ⟨hchar, ?_, ?_⟩
  · intro g _ hg
    rcases hg with hg | hg
    · unfold indexedId
      cases hid : g.id with
      | none => rfl
      | some gid =>
          rw [hg]
          exact if_neg (fun hc => absurd rfl hc.2.1)
    · unfold indexedId
      rw [hg]
  · intro hall
    rw [hchar]
    exact List.filterMap_eq_nil_iff.mpr hall

/-- Witness for C9 at a concrete listing: the well-formed record registers
its id under the upper-cased symbol; the record lacking a symbol registers
nothing. -/
theorem build_gtt_index_spec_witness :
    ordersFor (build_gtt_index gttsMixed) "ABC" = [7] ∧
      indexedId "ABC" ⟨none, some 3⟩ = none := by
  obtain ⟨h1, h2, h3⟩ := build_gtt_index_spec gttsMixed "ABC"
  refine ⟨?_, h2 ⟨none, some 3⟩ (by decide) (Or.inl rfl)⟩
  rw [h1]
  decide

/-- C8 counterexample: with one standing order (id 1) for ABC indexed, a
broker whose deletion call fails (raises) and a new order with id 2, the
reconciliation leaves TWO standing orders for ABC — the claim that at most
one survives is false when a deletion fails, since deletions are
best-effort. -/
theorem reconcile_two_orders_counterexample :
    ¬ (((reconcile_symbol (fun _ => false) brokerBefore (build_gtt_index gttsBefore)
        "ABC" 2).filter (fun o => o.2 == pyUpper "ABC")).length ≤ 1) := by
  decide

/-- C8 amended: provided the index covers every standing order the broker
holds for the symbol and every deletion call for the symbol's indexed
orders succeeds, at most one standing order for that symbol survives the
reconciliation (the newly placed one); a failed deletion can instead leave
an older order alongside the new one. -/
theorem at_most_one_gtt_after_reconcile (ok : Nat → Bool) (state : List (Nat × String))
    (gtt_index : GttIndex) (symbol : String) (newId : Nat)
    (hcover : ∀ o ∈ state, o.2 = pyUpper symbol → o.1 ∈ ordersFor gtt_index (pyUpper symbol))
    (hok : ∀ tid ∈ ordersFor gtt_index (pyUpper symbol), ok tid = true) :
    ((reconcile_symbol ok state gtt_index symbol newId).filter
        (fun o => o.2 == pyUpper symbol)).length ≤ 1 := by
  unfold reconcile_symbol
  rw [List.filter_append]
  have hnil : ((state.filter
      (fun o => !(((ordersFor gtt_index (pyUpper symbol)).filter ok).contains o.1))).filter
      (fun o => o.2 == pyUpper symbol)) = [] := by
    rw [List.filter_eq_nil_iff]
    intro o ho
    rw [List.mem_filter] at ho
    obtain ⟨hos, hnc⟩ := ho
    intro hbeq
    have hsym : o.2 = pyUpper symbol := by simpa using hbeq
    have h1 : o.1 ∈ ordersFor gtt_index (pyUpper symbol) := hcover o hos hsym
    simp at hnc
    rcases hnc with hn | hn
    · exact hn h1
    · rw [hok o.1 h1] at hn
      exact Bool.noConfusion hn
  rw [hnil]
  cases hb : (symbol == pyUpper symbol) <;>
    simp [List.filter_cons, hb]

/-- Witness for C8 amended: at the concrete one-order broker state with a
deletion oracle that always succeeds, exactly one order for ABC remains. -/
theorem at_most_one_gtt_after_reconcile_witness :
    ((reconcile_symbol (fun _ => true) brokerBefore (build_gtt_index gttsBefore)
        "ABC" 2).filter (fun o => o.2 == pyUpper "ABC")).length ≤ 1 :=
  at_most_one_gtt_after_reconcile (fun _ => true) brokerBefore (build_gtt_index gttsBefore)
    "ABC" 2 (by decide) (by decide)

end SellTarget
